import Mathlib

/-!
# camera.c : the H.264-over-UDP streaming pipeline launcher

A shallow embedding of `src/camera/h264udp/camera.c`.  The program is one C
function, `main`, which is a straight line of calls into libc, GLib and
GStreamer.  The embedding keeps that shape:

* `Env` is the outcome of every call whose result `main` inspects (`stat`,
  the five `gst_element_factory_make`, `gst_pipeline_new`, the four links) and
  whether the blocking `g_main_loop_run` ever returns;
* `main` produces the values of its three locals, the chronological list of
  calls it makes (`Event`) and its return value (`none` when it is still
  blocked in `g_main_loop_run`);
* `Framework` interprets a list of calls as a store of live objects,
  assigned properties and the pipeline state.

Calls whose result `main` does not look at (`gst_init`, `g_object_set`,
`gst_bin_add_many`, `gst_caps_new_simple`, `gst_element_set_state`,
`g_main_loop_new`, the unref calls and the prints) are taken to return.
-/

namespace Camera

/-! ## C library pieces used by `main` -/

/-- C `isspace` in the "C" locale: space, and the control characters
`\t \n \v \f \r` (codes 9 to 13). -/
def isspace (c : Char) : Bool := c.toNat == 32 || (9 ≤ c.toNat && c.toNat ≤ 13)

/-- C `isdigit`: the characters `0` to `9` (codes 48 to 57). -/
def isdigit (c : Char) : Bool := 48 ≤ c.toNat && c.toNat ≤ 57

/-- The digit loop of `strtol` in base 10: accumulate leading decimal digits
and stop at the first character that is not one. -/
def digits (acc : Nat) : List Char → Nat
  | [] => acc
  | c :: cs => if isdigit c then digits (acc * 10 + (c.toNat - 48)) cs else acc

def LONG_MAX : Int := 2 ^ 63 - 1

def LONG_MIN : Int := -(2 ^ 63)

/-- C `strtol(nptr, NULL, 10)` on an LP64 target: skip leading white space,
take an optional sign, read decimal digits, clamp to the range of `long`. -/
def strtol (nptr : List Char) : Int :=
  let s := nptr.dropWhile isspace
  match s with
  | '-' :: t => max (-(digits 0 t : Int)) LONG_MIN
  | '+' :: t => min (digits 0 t : Int) LONG_MAX
  | _ => min (digits 0 s : Int) LONG_MAX

/-- Conversion of a `long` to a 32-bit `int` (two's complement wrap). -/
def toInt32 (x : Int) : Int := (x + 2 ^ 31) % 2 ^ 32 - 2 ^ 31

/-- C `atoi`, which the C library defines as `(int) strtol(nptr, NULL, 10)`.
For every text whose value fits an `int` this is the plain decimal value; the
C standard leaves other inputs undefined and the definition follows glibc
there. -/
def atoi (nptr : String) : Int := toInt32 (strtol nptr.toList)

/-! ## The objects and calls of the run -/

/-- The framework objects `main` holds, named after its variables; `loop` is
the anonymous result of `g_main_loop_new`. -/
inductive Obj where
  | source | convert | encoder | payloader | sink | pipeline | caps | loop
  deriving DecidableEq, Repr

/-- A property or caps-field value passed through a varargs call. -/
inductive Val where
  | str (s : String)
  | int (i : Int)
  | fraction (num den : Int)
  deriving DecidableEq, Repr

inductive GstState where
  | GST_STATE_NULL | GST_STATE_PLAYING
  deriving DecidableEq, Repr

/-- One call made by `main`, with its arguments and, where `main` looks at
it, its outcome. -/
inductive Event where
  | g_printerr (text : String)
  | g_print (text : String)
  | stat (path : String) (found : Bool)
  | gst_init
  | gst_element_factory_make (factoryname name : String) (result : Option Obj)
  | g_object_set (object : Obj) (props : List (String × Val))
  | gst_pipeline_new (name : String) (result : Option Obj)
  | gst_bin_add_many (bin : Obj) (elements : List Obj)
  | gst_caps_new_simple (media_type : String) (fields : List (String × Val))
  | gst_element_link_filtered (src dest filter : Obj) (linked : Bool)
  | gst_caps_unref (c : Obj)
  | gst_element_link (src dest : Obj) (linked : Bool)
  | gst_object_unref (object : Obj)
  | gst_element_set_state (element : Obj) (state : GstState)
  | g_main_loop_new
  | g_main_loop_run (returned : Bool)
  deriving DecidableEq, Repr

/-- The outcomes `main` cannot decide itself. -/
structure Env where
  /-- Outcome `stat(path, &st) == 0`. -/
  stat : String → Bool
  /-- Outcome `gst_element_factory_make(factoryname, name) != NULL`. -/
  gst_element_factory_make : String → String → Bool
  /-- Outcome `gst_pipeline_new(name) != NULL`. -/
  gst_pipeline_new : String → Bool
  /-- result of `gst_element_link_filtered(src, dest, caps)` -/
  gst_element_link_filtered : Obj → Obj → Bool
  /-- result of `gst_element_link(src, dest)` -/
  gst_element_link : Obj → Obj → Bool
  /-- whether `g_main_loop_run` ever returns -/
  g_main_loop_run : Bool

/-- The three configuration locals of `main` and what the argument block has
written to standard error. -/
structure Locals where
  ip_address : String
  device_path : String
  udp_port : Int
  out : List Event
  deriving DecidableEq, Repr

/-- Lines 19-35 of `main`: defaults, then the `argc` cascade.  `argv` is the
whole argument vector, program name included, and `argc` its length. -/
def main_arguments (argv : List String) : Locals :=
  let argc := argv.length
  let l : Locals :=
    { ip_address := "127.0.0.1", device_path := "/dev/video0", udp_port := 5000, out := [] }
  if argc == 2 then
    { l with ip_address := argv.getD 1 "" }
  else if argc == 3 then
    { l with ip_address := argv.getD 1 "", udp_port := atoi (argv.getD 2 "") }
  else if argc == 4 then
    { l with ip_address := argv.getD 1 "", udp_port := atoi (argv.getD 2 ""),
             device_path := argv.getD 3 "" }
  else if argc > 4 then
    { l with out := [Event.g_printerr "Check Input Variables\n"] }
  else l

/-- A pointer result: the object when the call succeeded, `NULL` otherwise. -/
def ptr (ok : Bool) (o : Obj) : Option Obj := if ok then some o else none

/-- What a run of `main` leaves behind. -/
structure Run where
  ip_address : String
  udp_port : Int
  device_path : String
  /-- the calls made, oldest first -/
  trace : List Event
  /-- the value returned; `none` while blocked in `g_main_loop_run` -/
  ret : Option Int
  deriving DecidableEq, Repr

/-- The function `main` of camera.c (lines 18-145). -/
def main (env : Env) (argv : List String) : Run :=
  let l := main_arguments argv
  let ip_address := l.ip_address
  let device_path := l.device_path
  let udp_port := l.udp_port
  let done (t : List Event) (r : Option Int) : Run :=
    { ip_address := ip_address, udp_port := udp_port, device_path := device_path,
      trace := t, ret := r }
  let t := l.out
  /- device check -/
  let found := env.stat device_path
  let t := t ++ [Event.stat device_path found]
  if !found then
    done (t ++ [Event.g_printerr ("Device " ++ device_path ++ " not found\n")]) (some (-1))
  else
  let t := t ++
    [Event.g_print ("IP Address: " ++ ip_address ++ "\n"),
     Event.g_print ("UDP Port: " ++ toString udp_port ++ "\n"),
     Event.g_print ("Device Path: " ++ device_path ++ "\n"),
     Event.gst_init]
  /- element creation -/
  let source := ptr (env.gst_element_factory_make "v4l2src" "source") Obj.source
  let convert := ptr (env.gst_element_factory_make "videoconvert" "convert") Obj.convert
  let encoder := ptr (env.gst_element_factory_make "x264enc" "encoder") Obj.encoder
  let payloader := ptr (env.gst_element_factory_make "rtph264pay" "payloader") Obj.payloader
  let sink := ptr (env.gst_element_factory_make "udpsink" "sink") Obj.sink
  let t := t ++
    [Event.gst_element_factory_make "v4l2src" "source" source,
     Event.gst_element_factory_make "videoconvert" "convert" convert,
     Event.gst_element_factory_make "x264enc" "encoder" encoder,
     Event.gst_element_factory_make "rtph264pay" "payloader" payloader,
     Event.gst_element_factory_make "udpsink" "sink" sink]
  if source.isNone || convert.isNone || encoder.isNone || payloader.isNone || sink.isNone then
    done (t ++ [Event.g_printerr "Fail to Create Element\n"]) (some (-1))
  else
  /- source camera device -/
  let t := t ++ [Event.g_object_set Obj.source [("device", Val.str device_path)]]
  /- pipeline creation -/
  let pipeline := ptr (env.gst_pipeline_new "video-pipeline") Obj.pipeline
  let t := t ++ [Event.gst_pipeline_new "video-pipeline" pipeline]
  if pipeline.isNone then
    done (t ++ [Event.g_printerr "Fail to create pipeline\n"]) (some (-1))
  else
  /- adding the elements -/
  let t := t ++
    [Event.gst_bin_add_many Obj.pipeline
       [Obj.source, Obj.convert, Obj.encoder, Obj.payloader, Obj.sink]]
  /- linking -/
  let t := t ++
    [Event.gst_caps_new_simple "video/x-raw"
       [("width", Val.int 640), ("height", Val.int 480), ("framerate", Val.fraction 30 1)]]
  let linked := env.gst_element_link_filtered Obj.source Obj.convert
  let t := t ++ [Event.gst_element_link_filtered Obj.source Obj.convert Obj.caps linked]
  if !linked then
    done (t ++ [Event.g_printerr "source -> convert link fail\n",
                Event.gst_object_unref Obj.pipeline]) (some (-1))
  else
  let t := t ++ [Event.gst_caps_unref Obj.caps]
  let linked := env.gst_element_link Obj.convert Obj.encoder
  let t := t ++ [Event.gst_element_link Obj.convert Obj.encoder linked]
  if !linked then
    done (t ++ [Event.g_printerr "convert -> encoder link fail\n",
                Event.gst_object_unref Obj.pipeline]) (some (-1))
  else
  /- encoder settings -/
  let t := t ++
    [Event.g_object_set Obj.encoder
       [("tune", Val.int 0x00000004), ("key-int-max", Val.int 15),
        ("bitrate", Val.int 1000), ("speed-preset", Val.int 1)]]
  let linked := env.gst_element_link Obj.encoder Obj.payloader
  let t := t ++ [Event.gst_element_link Obj.encoder Obj.payloader linked]
  if !linked then
    done (t ++ [Event.g_printerr "encoder -> payloader link fail\n",
                Event.gst_object_unref Obj.pipeline]) (some (-1))
  else
  /- payloader settings -/
  let t := t ++
    [Event.g_object_set Obj.payloader [("config-interval", Val.int 1), ("pt", Val.int 96)]]
  let linked := env.gst_element_link Obj.payloader Obj.sink
  let t := t ++ [Event.gst_element_link Obj.payloader Obj.sink linked]
  if !linked then
    done (t ++ [Event.g_printerr "payloader -> sink link fail\n",
                Event.gst_object_unref Obj.pipeline]) (some (-1))
  else
  /- sink settings -/
  let t := t ++
    [Event.g_object_set Obj.sink [("host", Val.str ip_address), ("port", Val.int udp_port)]]
  /- run -/
  let t := t ++ [Event.gst_element_set_state Obj.pipeline GstState.GST_STATE_PLAYING]
  /- main loop -/
  let t := t ++
    [Event.g_print "Streaming Started!! SAFE PARK\n",
     Event.g_print "Press Ctrl+C to terminate\n",
     Event.g_main_loop_new,
     Event.g_main_loop_run env.g_main_loop_run]
  if !env.g_main_loop_run then
    done t none
  else
  /- shutdown -/
  done (t ++ [Event.gst_element_set_state Obj.pipeline GstState.GST_STATE_NULL,
              Event.gst_object_unref Obj.pipeline]) (some 0)

/-! ## The framework's store, as the calls change it -/

/-- Live objects, the contents of the pipeline bin, the properties assigned
so far (latest first) and the state last requested of the pipeline. -/
structure Framework where
  live : List Obj
  contents : List Obj
  props : List (Obj × String × Val)
  state : Option GstState
  deriving DecidableEq, Repr

def Framework.init : Framework := { live := [], contents := [], props := [], state := none }

/-- Effect of one call on the store.  Creating calls add their object when
they succeed; `gst_bin_add_many` hands the elements to the bin;
`gst_caps_unref` and `gst_object_unref` drop the only reference `main` holds,
and releasing the pipeline releases the elements it contains. -/
def Framework.step (w : Framework) : Event → Framework
  | Event.gst_element_factory_make _ _ (some o) => { w with live := w.live ++ [o] }
  | Event.gst_pipeline_new _ (some o) => { w with live := w.live ++ [o] }
  | Event.gst_caps_new_simple _ _ => { w with live := w.live ++ [Obj.caps] }
  | Event.g_main_loop_new => { w with live := w.live ++ [Obj.loop] }
  | Event.gst_bin_add_many _ elements => { w with contents := w.contents ++ elements }
  | Event.g_object_set o ps =>
      { w with props := (ps.reverse.map fun kv => (o, kv.1, kv.2)) ++ w.props }
  | Event.gst_caps_unref c => { w with live := w.live.filter fun x => x != c }
  | Event.gst_object_unref o =>
      if o = Obj.pipeline then
        { w with live := w.live.filter fun x => x != o && !w.contents.contains x,
                 contents := [] }
      else { w with live := w.live.filter fun x => x != o }
  | Event.gst_element_set_state _ s => { w with state := some s }
  | _ => w

/-- The store after a list of calls, starting from nothing. -/
def Framework.after (t : List Event) : Framework := t.foldl Framework.step Framework.init

/-- The value a property of an object was last set to. -/
def Framework.property (w : Framework) (o : Obj) (key : String) : Option Val :=
  (w.props.find? fun p => p.1 == o && p.2.1 == key).map fun p => p.2.2

/-- The objects still live when the run ends. -/
def Run.live (r : Run) : List Obj := (Framework.after r.trace).live

/-! ## Shape of a run -/

/-- Whether all five `gst_element_factory_make` calls of `main` succeed. -/
def Env.created (env : Env) : Bool :=
  env.gst_element_factory_make "v4l2src" "source" &&
  env.gst_element_factory_make "videoconvert" "convert" &&
  env.gst_element_factory_make "x264enc" "encoder" &&
  env.gst_element_factory_make "rtph264pay" "payloader" &&
  env.gst_element_factory_make "udpsink" "sink"

/-- The calls from the device check through `gst_init`, for a device that exists. -/
def startup (l : Locals) : List Event :=
  l.out ++
    [Event.stat l.device_path true,
     Event.g_print ("IP Address: " ++ l.ip_address ++ "\n"),
     Event.g_print ("UDP Port: " ++ toString l.udp_port ++ "\n"),
     Event.g_print ("Device Path: " ++ l.device_path ++ "\n"),
     Event.gst_init]

/-- The five element creations with their results. -/
def creation (env : Env) : List Event :=
  [Event.gst_element_factory_make "v4l2src" "source"
     (ptr (env.gst_element_factory_make "v4l2src" "source") Obj.source),
   Event.gst_element_factory_make "videoconvert" "convert"
     (ptr (env.gst_element_factory_make "videoconvert" "convert") Obj.convert),
   Event.gst_element_factory_make "x264enc" "encoder"
     (ptr (env.gst_element_factory_make "x264enc" "encoder") Obj.encoder),
   Event.gst_element_factory_make "rtph264pay" "payloader"
     (ptr (env.gst_element_factory_make "rtph264pay" "payloader") Obj.payloader),
   Event.gst_element_factory_make "udpsink" "sink"
     (ptr (env.gst_element_factory_make "udpsink" "sink") Obj.sink)]

/-- The calls from the device check up to the creation of the caps, when the
device exists and every creation succeeds. -/
def assembly (l : Locals) : List Event :=
  startup l ++
    [Event.gst_element_factory_make "v4l2src" "source" (some Obj.source),
     Event.gst_element_factory_make "videoconvert" "convert" (some Obj.convert),
     Event.gst_element_factory_make "x264enc" "encoder" (some Obj.encoder),
     Event.gst_element_factory_make "rtph264pay" "payloader" (some Obj.payloader),
     Event.gst_element_factory_make "udpsink" "sink" (some Obj.sink),
     Event.g_object_set Obj.source [("device", Val.str l.device_path)],
     Event.gst_pipeline_new "video-pipeline" (some Obj.pipeline),
     Event.gst_bin_add_many Obj.pipeline
       [Obj.source, Obj.convert, Obj.encoder, Obj.payloader, Obj.sink],
     Event.gst_caps_new_simple "video/x-raw"
       [("width", Val.int 640), ("height", Val.int 480), ("framerate", Val.fraction 30 1)]]

/-- The calls after the first link has succeeded, through the second link. -/
def second_link (linked : Bool) : List Event :=
  [Event.gst_element_link_filtered Obj.source Obj.convert Obj.caps true,
   Event.gst_caps_unref Obj.caps,
   Event.gst_element_link Obj.convert Obj.encoder linked]

/-- The encoder settings and the third link. -/
def third_link (linked : Bool) : List Event :=
  [Event.g_object_set Obj.encoder
     [("tune", Val.int 4), ("key-int-max", Val.int 15),
      ("bitrate", Val.int 1000), ("speed-preset", Val.int 1)],
   Event.gst_element_link Obj.encoder Obj.payloader linked]

/-- The payloader settings and the fourth link. -/
def fourth_link (linked : Bool) : List Event :=
  [Event.g_object_set Obj.payloader [("config-interval", Val.int 1), ("pt", Val.int 96)],
   Event.gst_element_link Obj.payloader Obj.sink linked]

/-- The sink settings, the start of the pipeline and the main loop; the
shutdown calls follow when the loop returns. -/
def running (l : Locals) (returned : Bool) : List Event :=
  [Event.g_object_set Obj.sink [("host", Val.str l.ip_address), ("port", Val.int l.udp_port)],
   Event.gst_element_set_state Obj.pipeline GstState.GST_STATE_PLAYING,
   Event.g_print "Streaming Started!! SAFE PARK\n",
   Event.g_print "Press Ctrl+C to terminate\n",
   Event.g_main_loop_new,
   Event.g_main_loop_run returned] ++
  (if returned then
    [Event.gst_element_set_state Obj.pipeline GstState.GST_STATE_NULL,
     Event.gst_object_unref Obj.pipeline]
   else [])

/-- The diagnostic and the release that follow a failed link. -/
def abort (text : String) : List Event :=
  [Event.g_printerr text, Event.gst_object_unref Obj.pipeline]

/-- Whether all four links of `main` succeed. -/
def Env.linked (env : Env) : Bool :=
  env.gst_element_link_filtered Obj.source Obj.convert &&
  env.gst_element_link Obj.convert Obj.encoder &&
  env.gst_element_link Obj.encoder Obj.payloader &&
  env.gst_element_link Obj.payloader Obj.sink

/-- Whether one of the failure kinds holds for a run on this device path: the
path is missing, a creation fails, the container creation fails or a link
fails. -/
def Env.failure (env : Env) (device_path : String) : Bool :=
  !env.stat device_path || !env.created || !env.gst_pipeline_new "video-pipeline" ||
    !env.linked

/-! ## Vocabulary of the properties -/

/-- Whether a text has a decimal digit right after its optional leading white
space and its optional sign. -/
def has_leading_digit (s : String) : Bool :=
  match s.toList.dropWhile isspace with
  | [] => false
  | c :: rest =>
    if c = '-' ∨ c = '+' then (match rest with | [] => false | d :: _ => isdigit d)
    else isdigit c

/-- The three configuration values of a run: address, port, device path. -/
def Run.config (r : Run) : String × Int × String := (r.ip_address, r.udp_port, r.device_path)

/-- Calls into the multimedia framework: every call but `stat` and the two
print functions. -/
def Event.framework_call : Event → Bool
  | Event.g_printerr _ => false
  | Event.g_print _ => false
  | Event.stat _ _ => false
  | _ => true

/-- The object a call brings to life, if any. -/
def Event.creates : Event → Option Obj
  | Event.gst_element_factory_make _ _ result => result
  | Event.gst_pipeline_new _ result => result
  | Event.gst_caps_new_simple _ _ => some Obj.caps
  | Event.g_main_loop_new => some Obj.loop
  | _ => none

/-- Every object created during a list of calls, in order of creation. -/
def created_objects (t : List Event) : List Obj := t.filterMap Event.creates

/-- Whether a call is a creation (of a stage object or of the container)
that returned `NULL`. -/
def Event.failed_creation : Event → Bool
  | Event.gst_element_factory_make _ _ none => true
  | Event.gst_pipeline_new _ none => true
  | _ => false

/-- The link a call attempts: source, destination, caps filter if any, and
whether it succeeded. -/
def Event.link_attempt : Event → Option (Obj × Obj × Option Obj × Bool)
  | Event.gst_element_link_filtered src dest filter linked => some (src, dest, some filter, linked)
  | Event.gst_element_link src dest linked => some (src, dest, none, linked)
  | _ => none

/-- The links attempted during a list of calls, in order. -/
def link_attempts (t : List Event) : List (Obj × Obj × Option Obj × Bool) :=
  t.filterMap Event.link_attempt

/-- The linear chain over the five stages, with the caps filter each link
carries. -/
def chain : List (Obj × Obj × Option Obj) :=
  [(Obj.source, Obj.convert, some Obj.caps), (Obj.convert, Obj.encoder, none),
   (Obj.encoder, Obj.payloader, none), (Obj.payloader, Obj.sink, none)]

/-- The first `k` links of the chain, all successful. -/
def linked_chain (k : Nat) : List (Obj × Obj × Option Obj × Bool) :=
  (chain.take k).map fun c => (c.1, c.2.1, c.2.2, true)

/-- The caps a call builds: media type and fields. -/
def Event.caps_built : Event → Option (String × List (String × Val))
  | Event.gst_caps_new_simple media_type fields => some (media_type, fields)
  | _ => none

/-- The property lists assigned to one object during a list of calls, one
entry per `g_object_set` call on it. -/
def settings_of (o : Obj) (t : List Event) : List (List (String × Val)) :=
  t.filterMap fun e =>
    match e with
    | Event.g_object_set object props => if object = o then some props else none
    | _ => none

/-- The call that starts the pipeline. -/
def playing : Event := Event.gst_element_set_state Obj.pipeline GstState.GST_STATE_PLAYING

/-- The attempts of a run whose first `k` links succeed and whose next link fails. -/
def failed_at (k : Nat) : List (Obj × Obj × Option Obj × Bool) :=
  linked_chain k ++ ((chain.drop k).take 1).map fun c => (c.1, c.2.1, c.2.2, false)

/-- Whether a call releases an object. -/
def Event.releases : Event → Bool
  | Event.gst_object_unref _ => true
  | Event.gst_caps_unref _ => true
  | _ => false


/-! ## Concrete environments -/

/-- Every path exists and every framework call succeeds; the main loop never
returns. -/
def Env.nominal : Env :=
  { stat := fun _ => true
    gst_element_factory_make := fun _ _ => true
    gst_pipeline_new := fun _ => true
    gst_element_link_filtered := fun _ _ => true
    gst_element_link := fun _ _ => true
    g_main_loop_run := false }

/-- As `Env.nominal`, but only `/dev/video1` exists. -/
def Env.only_video1 : Env := { Env.nominal with stat := fun path => path == "/dev/video1" }

/-- As `Env.nominal`, but no device path exists. -/
def Env.no_device : Env := { Env.nominal with stat := fun _ => false }

/-- As `Env.nominal`, but the capture element cannot be created. -/
def Env.no_v4l2src : Env :=
  { Env.nominal with gst_element_factory_make := fun factoryname _ => factoryname != "v4l2src" }

/-- As `Env.nominal`, but the link from `src` to its successor fails. -/
def Env.broken_link (src : Obj) : Env :=
  { Env.nominal with
    gst_element_link_filtered := fun s _ => s != src
    gst_element_link := fun s _ => s != src }

/-! ## Lemmas on the shape of a run -/

theorem isNone_ptr (b : Bool) (o : Obj) : (ptr b o).isNone = !b := by
  cases b <;> rfl

theorem created_false (env : Env) (hc : env.created = false) :
    (!env.gst_element_factory_make "v4l2src" "source" ||
      !env.gst_element_factory_make "videoconvert" "convert" ||
      !env.gst_element_factory_make "x264enc" "encoder" ||
      !env.gst_element_factory_make "rtph264pay" "payloader" ||
      !env.gst_element_factory_make "udpsink" "sink") = true := by
  revert hc
  simp only [Env.created]
  cases env.gst_element_factory_make "v4l2src" "source" <;>
  cases env.gst_element_factory_make "videoconvert" "convert" <;>
  cases env.gst_element_factory_make "x264enc" "encoder" <;>
  cases env.gst_element_factory_make "rtph264pay" "payloader" <;>
  cases env.gst_element_factory_make "udpsink" "sink" <;> simp

theorem created_true (env : Env) (hc : env.created = true) :
    env.gst_element_factory_make "v4l2src" "source" = true ∧
    env.gst_element_factory_make "videoconvert" "convert" = true ∧
    env.gst_element_factory_make "x264enc" "encoder" = true ∧
    env.gst_element_factory_make "rtph264pay" "payloader" = true ∧
    env.gst_element_factory_make "udpsink" "sink" = true := by
  simpa [Env.created, and_assoc] using hc

theorem main_locals (env : Env) (argv : List String) :
    (main env argv).ip_address = (main_arguments argv).ip_address ∧
    (main env argv).udp_port = (main_arguments argv).udp_port ∧
    (main env argv).device_path = (main_arguments argv).device_path := by
  unfold main
  simp only [apply_ite Run.ip_address, apply_ite Run.udp_port, apply_ite Run.device_path,
    ite_self, and_self]

theorem main_missing (env : Env) (argv : List String)
    (h : env.stat (main_arguments argv).device_path = false) :
    (main env argv).trace = (main_arguments argv).out ++
      [Event.stat (main_arguments argv).device_path false,
       Event.g_printerr ("Device " ++ (main_arguments argv).device_path ++ " not found\n")] ∧
    (main env argv).ret = some (-1) := by
  unfold main
  simp only [h]
  simp only [Bool.not_false, if_true, List.append_assoc, List.singleton_append, and_self]

theorem main_create_fail (env : Env) (argv : List String)
    (h : env.stat (main_arguments argv).device_path = true) (hc : env.created = false) :
    (main env argv).trace = startup (main_arguments argv) ++ creation env ++
      [Event.g_printerr "Fail to Create Element\n"] ∧
    (main env argv).ret = some (-1) := by
  have hc2 := created_false env hc
  unfold main
  simp only [h, isNone_ptr, hc2, startup, creation]
  simp only [Bool.not_true, Bool.false_eq_true, if_true, if_false, List.append_assoc,
    List.singleton_append, List.cons_append, List.nil_append, and_self]

theorem main_pipeline_fail (env : Env) (argv : List String)
    (h : env.stat (main_arguments argv).device_path = true) (hc : env.created = true)
    (hp : env.gst_pipeline_new "video-pipeline" = false) :
    (main env argv).trace = startup (main_arguments argv) ++ creation env ++
      [Event.g_object_set Obj.source [("device", Val.str (main_arguments argv).device_path)],
       Event.gst_pipeline_new "video-pipeline" none,
       Event.g_printerr "Fail to create pipeline\n"] ∧
    (main env argv).ret = some (-1) := by
  obtain ⟨h1, h2, h3, h4, h5⟩ := created_true env hc
  unfold main
  simp only [h, isNone_ptr, h1, h2, h3, h4, h5, hp, startup, creation]
  simp only [Bool.not_true, Bool.not_false, Bool.or_self, Bool.false_eq_true, if_true, if_false,
    List.append_assoc, List.singleton_append, List.cons_append, List.nil_append, and_self, ptr]

theorem main_link1_fail (env : Env) (argv : List String)
    (h : env.stat (main_arguments argv).device_path = true) (hc : env.created = true)
    (hp : env.gst_pipeline_new "video-pipeline" = true)
    (k1 : env.gst_element_link_filtered Obj.source Obj.convert = false) :
    (main env argv).trace = assembly (main_arguments argv) ++
      [Event.gst_element_link_filtered Obj.source Obj.convert Obj.caps false] ++
      abort "source -> convert link fail\n" ∧
    (main env argv).ret = some (-1) := by
  obtain ⟨h1, h2, h3, h4, h5⟩ := created_true env hc
  unfold main
  simp only [h, isNone_ptr, h1, h2, h3, h4, h5, hp, k1, startup, assembly, abort]
  simp only [Bool.not_true, Bool.not_false, Bool.or_self, Bool.false_eq_true, if_true, if_false,
    List.append_assoc, List.singleton_append, List.cons_append, List.nil_append, and_self, ptr]

theorem main_link2_fail (env : Env) (argv : List String)
    (h : env.stat (main_arguments argv).device_path = true) (hc : env.created = true)
    (hp : env.gst_pipeline_new "video-pipeline" = true)
    (k1 : env.gst_element_link_filtered Obj.source Obj.convert = true)
    (k2 : env.gst_element_link Obj.convert Obj.encoder = false) :
    (main env argv).trace = assembly (main_arguments argv) ++ second_link false ++
      abort "convert -> encoder link fail\n" ∧
    (main env argv).ret = some (-1) := by
  obtain ⟨h1, h2, h3, h4, h5⟩ := created_true env hc
  unfold main
  simp only [h, isNone_ptr, h1, h2, h3, h4, h5, hp, k1, k2, startup, assembly, abort, second_link]
  simp only [Bool.not_true, Bool.not_false, Bool.or_self, Bool.false_eq_true, if_true, if_false,
    List.append_assoc, List.singleton_append, List.cons_append, List.nil_append, and_self, ptr]

theorem main_link3_fail (env : Env) (argv : List String)
    (h : env.stat (main_arguments argv).device_path = true) (hc : env.created = true)
    (hp : env.gst_pipeline_new "video-pipeline" = true)
    (k1 : env.gst_element_link_filtered Obj.source Obj.convert = true)
    (k2 : env.gst_element_link Obj.convert Obj.encoder = true)
    (k3 : env.gst_element_link Obj.encoder Obj.payloader = false) :
    (main env argv).trace = assembly (main_arguments argv) ++ second_link true ++
      third_link false ++ abort "encoder -> payloader link fail\n" ∧
    (main env argv).ret = some (-1) := by
  obtain ⟨h1, h2, h3, h4, h5⟩ := created_true env hc
  unfold main
  simp only [h, isNone_ptr, h1, h2, h3, h4, h5, hp, k1, k2, k3, startup, assembly, abort,
    second_link, third_link]
  simp only [Bool.not_true, Bool.not_false, Bool.or_self, Bool.false_eq_true, if_true, if_false,
    List.append_assoc, List.singleton_append, List.cons_append, List.nil_append, and_self, ptr]

theorem main_link4_fail (env : Env) (argv : List String)
    (h : env.stat (main_arguments argv).device_path = true) (hc : env.created = true)
    (hp : env.gst_pipeline_new "video-pipeline" = true)
    (k1 : env.gst_element_link_filtered Obj.source Obj.convert = true)
    (k2 : env.gst_element_link Obj.convert Obj.encoder = true)
    (k3 : env.gst_element_link Obj.encoder Obj.payloader = true)
    (k4 : env.gst_element_link Obj.payloader Obj.sink = false) :
    (main env argv).trace = assembly (main_arguments argv) ++ second_link true ++
      third_link true ++ fourth_link false ++ abort "payloader -> sink link fail\n" ∧
    (main env argv).ret = some (-1) := by
  obtain ⟨h1, h2, h3, h4, h5⟩ := created_true env hc
  unfold main
  simp only [h, isNone_ptr, h1, h2, h3, h4, h5, hp, k1, k2, k3, k4, startup, assembly, abort,
    second_link, third_link, fourth_link]
  simp only [Bool.not_true, Bool.not_false, Bool.or_self, Bool.false_eq_true, if_true, if_false,
    List.append_assoc, List.singleton_append, List.cons_append, List.nil_append, and_self, ptr]

theorem main_started (env : Env) (argv : List String)
    (h : env.stat (main_arguments argv).device_path = true) (hc : env.created = true)
    (hp : env.gst_pipeline_new "video-pipeline" = true)
    (k1 : env.gst_element_link_filtered Obj.source Obj.convert = true)
    (k2 : env.gst_element_link Obj.convert Obj.encoder = true)
    (k3 : env.gst_element_link Obj.encoder Obj.payloader = true)
    (k4 : env.gst_element_link Obj.payloader Obj.sink = true) :
    (main env argv).trace = assembly (main_arguments argv) ++ second_link true ++
      third_link true ++ fourth_link true ++
      running (main_arguments argv) env.g_main_loop_run ∧
    (main env argv).ret = (if env.g_main_loop_run then some 0 else none) := by
  obtain ⟨h1, h2, h3, h4, h5⟩ := created_true env hc
  unfold main
  simp only [h, isNone_ptr, h1, h2, h3, h4, h5, hp, k1, k2, k3, k4, startup, assembly, running,
    second_link, third_link, fourth_link]
  cases env.g_main_loop_run <;>
  simp only [Bool.not_true, Bool.not_false, Bool.or_self, Bool.false_eq_true, if_true, if_false,
    List.append_assoc, List.singleton_append, List.cons_append, List.nil_append, and_self, ptr,
    List.append_nil]

/-- The eight ways a run of `main` can go, each with its calls and its
return value. -/
theorem main_cases (env : Env) (argv : List String) :
    (env.failure (main_arguments argv).device_path = true ∧
      env.stat (main_arguments argv).device_path = false ∧
      (main env argv).trace = (main_arguments argv).out ++
        [Event.stat (main_arguments argv).device_path false,
         Event.g_printerr ("Device " ++ (main_arguments argv).device_path ++ " not found\n")] ∧
      (main env argv).ret = some (-1)) ∨
    (env.failure (main_arguments argv).device_path = true ∧
      env.created = false ∧
      (main env argv).trace = startup (main_arguments argv) ++ creation env ++
        [Event.g_printerr "Fail to Create Element\n"] ∧
      (main env argv).ret = some (-1)) ∨
    (env.failure (main_arguments argv).device_path = true ∧
      env.created = true ∧
      (main env argv).trace = startup (main_arguments argv) ++ creation env ++
        [Event.g_object_set Obj.source [("device", Val.str (main_arguments argv).device_path)],
         Event.gst_pipeline_new "video-pipeline" none,
         Event.g_printerr "Fail to create pipeline\n"] ∧
      (main env argv).ret = some (-1)) ∨
    (env.failure (main_arguments argv).device_path = true ∧
      (main env argv).trace = assembly (main_arguments argv) ++
        [Event.gst_element_link_filtered Obj.source Obj.convert Obj.caps false] ++
        abort "source -> convert link fail\n" ∧
      (main env argv).ret = some (-1)) ∨
    (env.failure (main_arguments argv).device_path = true ∧
      (main env argv).trace = assembly (main_arguments argv) ++ second_link false ++
        abort "convert -> encoder link fail\n" ∧
      (main env argv).ret = some (-1)) ∨
    (env.failure (main_arguments argv).device_path = true ∧
      (main env argv).trace = assembly (main_arguments argv) ++ second_link true ++
        third_link false ++ abort "encoder -> payloader link fail\n" ∧
      (main env argv).ret = some (-1)) ∨
    (env.failure (main_arguments argv).device_path = true ∧
      (main env argv).trace = assembly (main_arguments argv) ++ second_link true ++
        third_link true ++ fourth_link false ++ abort "payloader -> sink link fail\n" ∧
      (main env argv).ret = some (-1)) ∨
    (env.failure (main_arguments argv).device_path = false ∧
      (main env argv).trace = assembly (main_arguments argv) ++ second_link true ++
        third_link true ++ fourth_link true ++
        running (main_arguments argv) env.g_main_loop_run ∧
      (main env argv).ret = (if env.g_main_loop_run then some 0 else none)) := by
  cases h : env.stat (main_arguments argv).device_path
  · exact Or.inl ⟨by simp [Env.failure, h], rfl, main_missing env argv h⟩
  cases hc : env.created
  · exact Or.inr (Or.inl ⟨by simp [Env.failure, hc], rfl, main_create_fail env argv h hc⟩)
  cases hp : env.gst_pipeline_new "video-pipeline"
  · exact Or.inr (Or.inr (Or.inl
      ⟨by simp [Env.failure, hp], rfl, main_pipeline_fail env argv h hc hp⟩))
  cases k1 : env.gst_element_link_filtered Obj.source Obj.convert
  · exact Or.inr (Or.inr (Or.inr (Or.inl
      ⟨by simp [Env.failure, Env.linked, k1], main_link1_fail env argv h hc hp k1⟩)))
  cases k2 : env.gst_element_link Obj.convert Obj.encoder
  · exact Or.inr (Or.inr (Or.inr (Or.inr (Or.inl
      ⟨by simp [Env.failure, Env.linked, k2], main_link2_fail env argv h hc hp k1 k2⟩))))
  cases k3 : env.gst_element_link Obj.encoder Obj.payloader
  · exact Or.inr (Or.inr (Or.inr (Or.inr (Or.inr (Or.inl
      ⟨by simp [Env.failure, Env.linked, k3], main_link3_fail env argv h hc hp k1 k2 k3⟩)))))
  cases k4 : env.gst_element_link Obj.payloader Obj.sink
  · exact Or.inr (Or.inr (Or.inr (Or.inr (Or.inr (Or.inr (Or.inl
      ⟨by simp [Env.failure, Env.linked, k4], main_link4_fail env argv h hc hp k1 k2 k3 k4⟩))))))
  · exact Or.inr (Or.inr (Or.inr (Or.inr (Or.inr (Or.inr (Or.inr
      ⟨by simp [Env.failure, Env.linked, h, hc, hp, k1, k2, k3, k4],
       main_started env argv h hc hp k1 k2 k3 k4⟩))))))

/-- The argument block writes at most the one warning. -/
theorem main_arguments_out (argv : List String) :
    (main_arguments argv).out = [] ∨
    (main_arguments argv).out = [Event.g_printerr "Check Input Variables\n"] := by
  unfold main_arguments
  simp only []
  split_ifs <;> simp


/-! ## Lemmas on `atoi` -/

theorem digits_head (cs : List Char)
    (h : (match cs with | [] => false | d :: _ => isdigit d) = false) :
    digits 0 cs = 0 := by
  cases cs with
  | nil => rfl
  | cons d t => simp only at h; simp [digits, h]

theorem atoi_no_digit (s : String) (h : has_leading_digit s = false) : atoi s = 0 := by
  unfold has_leading_digit at h
  unfold atoi strtol
  simp only
  generalize s.toList.dropWhile isspace = cs at h ⊢
  cases cs with
  | nil => simp [digits, LONG_MAX, toInt32]
  | cons c rest =>
    simp only at h
    by_cases hm : c = '-'
    · subst hm
      simp only [true_or, if_true] at h
      simp [digits_head rest h, LONG_MIN, toInt32]
    · by_cases hp : c = '+'
      · subst hp
        simp only [or_true, if_true] at h
        simp [digits_head rest h, LONG_MAX, toInt32]
      · simp only [hm, hp, or_self, if_false] at h
        have : digits 0 (c :: rest) = 0 := by simp [digits, h]
        split
        · simp_all
        · simp_all
        · simp [this, LONG_MAX, toInt32]

theorem isDigit_eq_isdigit (c : Char) : c.isDigit = isdigit c := by
  simp only [Char.isDigit, isdigit, Char.toNat, UInt32.le_def, UInt32.lt_def, ge_iff_le]
  rfl

theorem digits_eq_foldl (cs : List Char) (acc : Nat) (h : cs.all isdigit = true) :
    digits acc cs = cs.foldl (fun n c => n * 10 + (c.toNat - 48)) acc := by
  induction cs generalizing acc with
  | nil => rfl
  | cons c t ih =>
    simp only [List.all_cons, Bool.and_eq_true] at h
    simp only [digits, h.1, if_true, List.foldl_cons]
    exact ih _ h.2

theorem isspace_of_isdigit (c : Char) (h : isdigit c = true) : isspace c = false := by
  simp only [isdigit, Bool.and_eq_true, decide_eq_true_eq] at h
  simp only [isspace, Bool.or_eq_false_iff, beq_eq_false_iff_ne, ne_eq, Bool.and_eq_false_imp,
    decide_eq_true_eq, decide_eq_false_iff_not]
  omega

theorem strtol_decimal (cs : List Char) (hne : cs ≠ []) (h : cs.all isdigit = true) :
    strtol cs = min ((cs.foldl (fun n c => n * 10 + (c.toNat - 48)) 0 : Nat) : Int) LONG_MAX := by
  cases cs with
  | nil => exact absurd rfl hne
  | cons c t =>
    have hc : isdigit c = true := by
      simp only [List.all_cons, Bool.and_eq_true] at h
      exact h.1
    have hs : (c :: t).dropWhile isspace = c :: t := by
      simp [List.dropWhile, isspace_of_isdigit c hc]
    have hm : c ≠ '-' := by
      rintro rfl
      revert hc; decide
    have hp : c ≠ '+' := by
      rintro rfl
      revert hc; decide
    unfold strtol
    simp only [hs]
    split
    · simp_all
    · simp_all
    · rw [digits_eq_foldl _ _ h]

theorem toInt32_of_small (n : Nat) (hn : n < 2 ^ 31) : toInt32 (min (n : Int) LONG_MAX) = n := by
  have h1 : min (n : Int) LONG_MAX = n := by
    apply min_eq_left
    unfold LONG_MAX
    omega
  rw [h1]
  unfold toInt32
  omega

/-- On a decimal text whose value fits an `int`, `atoi` is the decimal value
(as `String.toNat?` reads it). -/
theorem atoi_decimal (p : String) (n : Nat) (h : p.toNat? = some n) (hn : n < 2 ^ 31) :
    atoi p = n := by
  unfold String.toNat? at h
  split at h
  · rename_i hnat
    simp only [String.isNat, Bool.and_eq_true, Bool.not_eq_true', String.all_eq] at hnat
    have hne : p.toList ≠ [] := by
      intro he
      have : p.isEmpty = true := by
        cases p
        simp_all [String.isEmpty, String.endPos, String.utf8ByteSize, String.toList]
      simp [this] at hnat
    have hall : p.toList.all isdigit = true := by
      have := hnat.2
      simp only [List.all_eq_true] at this ⊢
      intro c hc
      rw [← isDigit_eq_isdigit]
      exact this c hc
    simp only [Option.some.injEq, String.foldl_eq] at h
    unfold atoi
    rw [strtol_decimal _ hne hall]
    have hv : p.toList.foldl (fun n c => n * 10 + (c.toNat - 48)) 0 = n := h
    rw [hv]
    exact toInt32_of_small n hn
  · simp at h

/-! ## The return value -/

theorem main_ret (env : Env) (argv : List String) :
    (main env argv).ret =
      if env.failure (main env argv).device_path then some (-1)
      else if env.g_main_loop_run then some 0 else none := by
  rw [(main_locals env argv).2.2]
  rcases main_cases env argv with ⟨hf, -, -, hr⟩ | ⟨hf, -, -, hr⟩ | ⟨hf, -, -, hr⟩ | ⟨hf, -, hr⟩ |
    ⟨hf, -, hr⟩ | ⟨hf, -, hr⟩ | ⟨hf, -, hr⟩ | ⟨hf, -, hr⟩ <;>
  simp [hf, hr]


/-! ## Lemmas on traces and on the store -/

theorem failure_false (env : Env) (dev : String) (h : env.failure dev = false) :
    env.stat dev = true ∧ env.created = true ∧ env.gst_pipeline_new "video-pipeline" = true ∧
    env.gst_element_link_filtered Obj.source Obj.convert = true ∧
    env.gst_element_link Obj.convert Obj.encoder = true ∧
    env.gst_element_link Obj.encoder Obj.payloader = true ∧
    env.gst_element_link Obj.payloader Obj.sink = true := by
  simpa [Env.failure, Env.linked, and_assoc] using h

theorem trace_started (env : Env) (argv : List String)
    (h : env.failure (main_arguments argv).device_path = false) :
    (main env argv).trace = assembly (main_arguments argv) ++ second_link true ++
      third_link true ++ fourth_link true ++
      running (main_arguments argv) env.g_main_loop_run := by
  obtain ⟨h0, hc, hp, k1, k2, k3, k4⟩ := failure_false env _ h
  exact (main_started env argv h0 hc hp k1 k2 k3 k4).1

theorem creation_of_created (env : Env) (hc : env.created = true) :
    creation env =
      [Event.gst_element_factory_make "v4l2src" "source" (some Obj.source),
       Event.gst_element_factory_make "videoconvert" "convert" (some Obj.convert),
       Event.gst_element_factory_make "x264enc" "encoder" (some Obj.encoder),
       Event.gst_element_factory_make "rtph264pay" "payloader" (some Obj.payloader),
       Event.gst_element_factory_make "udpsink" "sink" (some Obj.sink)] := by
  obtain ⟨h1, h2, h3, h4, h5⟩ := created_true env hc
  simp [creation, h1, h2, h3, h4, h5, ptr]

theorem after_append (t u : List Event) :
    Framework.after (t ++ u) = u.foldl Framework.step (Framework.after t) := by
  simp [Framework.after, List.foldl_append]

/-- Without a release call, everything created stays live. -/
theorem live_of_no_release (t : List Event) (w : Framework)
    (h : ∀ e ∈ t, e.releases = false) :
    (t.foldl Framework.step w).live = w.live ++ created_objects t := by
  induction t generalizing w with
  | nil => simp [created_objects]
  | cons e t ih =>
    have he : e.releases = false := h e (List.mem_cons_self e t)
    have ht : ∀ x ∈ t, x.releases = false := fun x hx => h x (List.mem_cons_of_mem e hx)
    rw [List.foldl_cons, ih _ ht]
    cases e with
    | gst_element_factory_make f n r =>
      cases r <;> simp [Framework.step, created_objects, Event.creates]
    | gst_pipeline_new n r =>
      cases r <;> simp [Framework.step, created_objects, Event.creates]
    | gst_caps_unref c => simp [Event.releases] at he
    | gst_object_unref o => simp [Event.releases] at he
    | _ => simp [Framework.step, created_objects, Event.creates]

theorem after_startup (l : Locals)
    (ho : l.out = [] ∨ l.out = [Event.g_printerr "Check Input Variables\n"]) :
    Framework.after (startup l) = Framework.init := by
  rcases ho with ho | ho <;> simp [startup, ho, Framework.after, Framework.step]

theorem after_assembly (l : Locals)
    (ho : l.out = [] ∨ l.out = [Event.g_printerr "Check Input Variables\n"]) :
    Framework.after (assembly l) =
      { live := [Obj.source, Obj.convert, Obj.encoder, Obj.payloader, Obj.sink, Obj.pipeline,
                 Obj.caps],
        contents := [Obj.source, Obj.convert, Obj.encoder, Obj.payloader, Obj.sink],
        props := [(Obj.source, "device", Val.str l.device_path)],
        state := none } := by
  unfold assembly
  rw [after_append, after_startup l ho]
  simp [Framework.step, Framework.init]


theorem failed_creation_assembly (l : Locals)
    (ho : l.out = [] ∨ l.out = [Event.g_printerr "Check Input Variables\n"]) :
    (assembly l).any Event.failed_creation = false := by
  rcases ho with ho | ho <;> simp [assembly, startup, ho, Event.failed_creation]

theorem link_attempts_assembly (l : Locals)
    (ho : l.out = [] ∨ l.out = [Event.g_printerr "Check Input Variables\n"]) :
    link_attempts (assembly l) = [] := by
  rcases ho with ho | ho <;> simp [assembly, startup, ho, link_attempts, Event.link_attempt]

theorem link_attempts_append (t u : List Event) :
    link_attempts (t ++ u) = link_attempts t ++ link_attempts u := by
  simp [link_attempts]

theorem link_attempts_first (b : Bool) :
    link_attempts [Event.gst_element_link_filtered Obj.source Obj.convert Obj.caps b] =
      [(Obj.source, Obj.convert, some Obj.caps, b)] := rfl

theorem link_attempts_second_link (b : Bool) :
    link_attempts (second_link b) =
      [(Obj.source, Obj.convert, some Obj.caps, true), (Obj.convert, Obj.encoder, none, b)] := rfl

theorem link_attempts_third_link (b : Bool) :
    link_attempts (third_link b) = [(Obj.encoder, Obj.payloader, none, b)] := rfl

theorem link_attempts_fourth_link (b : Bool) :
    link_attempts (fourth_link b) = [(Obj.payloader, Obj.sink, none, b)] := rfl

theorem link_attempts_abort (text : String) : link_attempts (abort text) = [] := rfl

theorem link_attempts_running (l : Locals) (b : Bool) : link_attempts (running l b) = [] := by
  cases b <;> rfl

theorem settings_of_append (o : Obj) (t u : List Event) :
    settings_of o (t ++ u) = settings_of o t ++ settings_of o u := by
  simp [settings_of]

theorem settings_of_assembly (l : Locals)
    (ho : l.out = [] ∨ l.out = [Event.g_printerr "Check Input Variables\n"]) :
    settings_of Obj.encoder (assembly l) = [] ∧ settings_of Obj.payloader (assembly l) = [] := by
  rcases ho with ho | ho <;> simp [assembly, startup, ho, settings_of]

theorem playing_not_mem_assembly (l : Locals)
    (ho : l.out = [] ∨ l.out = [Event.g_printerr "Check Input Variables\n"]) :
    playing ∉ assembly l := by
  rcases ho with ho | ho <;> simp [assembly, startup, ho, playing]

theorem caps_built_assembly (l : Locals)
    (ho : l.out = [] ∨ l.out = [Event.g_printerr "Check Input Variables\n"]) :
    (assembly l).filterMap Event.caps_built =
      [("video/x-raw",
        [("width", Val.int 640), ("height", Val.int 480), ("framerate", Val.fraction 30 1)])] := by
  rcases ho with ho | ho <;> simp [assembly, startup, ho, Event.caps_built]

/-- A run reaches the start of the pipeline only when nothing failed. -/
theorem failure_of_playing (env : Env) (argv : List String)
    (h : playing ∈ (main env argv).trace) :
    env.failure (main_arguments argv).device_path = false := by
  have ho := main_arguments_out argv
  have hP := playing_not_mem_assembly (main_arguments argv) ho
  rcases main_cases env argv with ⟨-, -, ht, -⟩ | ⟨-, -, ht, -⟩ | ⟨-, -, ht, -⟩ | ⟨-, ht, -⟩ |
    ⟨-, ht, -⟩ | ⟨-, ht, -⟩ | ⟨-, ht, -⟩ | ⟨hf, -, -⟩
  · exfalso
    rw [ht] at h
    rcases ho with ho | ho <;> simp [ho, playing] at h
  · exfalso
    rw [ht] at h
    rcases ho with ho | ho <;> simp [ho, playing, startup, creation] at h
  · exfalso
    rw [ht] at h
    rcases ho with ho | ho <;> simp [ho, playing, startup, creation] at h
  · exfalso
    rw [ht] at h
    simp only [List.mem_append, hP, false_or] at h
    simp [playing, abort] at h
  · exfalso
    rw [ht] at h
    simp only [List.mem_append, hP, false_or] at h
    simp [playing, abort, second_link] at h
  · exfalso
    rw [ht] at h
    simp only [List.mem_append, hP, false_or] at h
    simp [playing, abort, second_link, third_link] at h
  · exfalso
    rw [ht] at h
    simp only [List.mem_append, hP, false_or] at h
    simp [playing, abort, second_link, third_link, fourth_link] at h
  · exact hf

/-- Output of the argument block comes first in the trace and nothing else
depends on it. -/
theorem main_trace_out (env : Env) (argv argw : List String) (l : Locals) (e : Event)
    (hv : main_arguments argv = { l with out := e :: l.out }) (hw : main_arguments argw = l) :
    (main env argv).trace = e :: (main env argw).trace := by
  have hdv : (main_arguments argv).device_path = l.device_path := by rw [hv]
  have hdw : (main_arguments argw).device_path = l.device_path := by rw [hw]
  cases h : env.stat l.device_path
  · rw [(main_missing env argv (by rw [hdv]; exact h)).1,
      (main_missing env argw (by rw [hdw]; exact h)).1, hv, hw]
    rfl
  have hsv : env.stat (main_arguments argv).device_path = true := by rw [hdv]; exact h
  have hsw : env.stat (main_arguments argw).device_path = true := by rw [hdw]; exact h
  cases hc : env.created
  · rw [(main_create_fail env argv hsv hc).1, (main_create_fail env argw hsw hc).1, hv, hw]
    rfl
  cases hp : env.gst_pipeline_new "video-pipeline"
  · rw [(main_pipeline_fail env argv hsv hc hp).1, (main_pipeline_fail env argw hsw hc hp).1,
      hv, hw]
    rfl
  cases k1 : env.gst_element_link_filtered Obj.source Obj.convert
  · rw [(main_link1_fail env argv hsv hc hp k1).1, (main_link1_fail env argw hsw hc hp k1).1,
      hv, hw]
    rfl
  cases k2 : env.gst_element_link Obj.convert Obj.encoder
  · rw [(main_link2_fail env argv hsv hc hp k1 k2).1,
      (main_link2_fail env argw hsw hc hp k1 k2).1, hv, hw]
    rfl
  cases k3 : env.gst_element_link Obj.encoder Obj.payloader
  · rw [(main_link3_fail env argv hsv hc hp k1 k2 k3).1,
      (main_link3_fail env argw hsw hc hp k1 k2 k3).1, hv, hw]
    rfl
  cases k4 : env.gst_element_link Obj.payloader Obj.sink
  · rw [(main_link4_fail env argv hsv hc hp k1 k2 k3 k4).1,
      (main_link4_fail env argw hsw hc hp k1 k2 k3 k4).1, hv, hw]
    rfl
  · rw [(main_started env argv hsv hc hp k1 k2 k3 k4).1,
      (main_started env argw hsw hc hp k1 k2 k3 k4).1, hv, hw]
    rfl

/-! ## The claims -/

/-- C1: for an invocation with n positional arguments, n from 0 to 3, the
configuration of `main` is: address = argument 1 when supplied, else
"127.0.0.1"; port = `atoi` of argument 2 when supplied, else 5000; device
path = argument 3 when supplied, else "/dev/video0".  Defaults fill exactly
the trailing positions that were not supplied. -/
theorem C1_defaults_fill_trailing_positions (env : Env) (prog a p d : String) :
    (main env [prog]).config = ("127.0.0.1", 5000, "/dev/video0") ∧
    (main env [prog, a]).config = (a, 5000, "/dev/video0") ∧
    (main env [prog, a, p]).config = (a, atoi p, "/dev/video0") ∧
    (main env [prog, a, p, d]).config = (a, atoi p, d) := by
  simp [Run.config, main_locals, main_arguments]

/-- C2: invoked with the three arguments (a, p, d), when the path d exists and
every creation and link succeeds, `main` sets the pipeline to PLAYING, and at
that moment the sink has host a and port `atoi p` and the source has device
d; for a decimal text p whose value fits an `int`, `atoi p` is that value. -/
theorem C2_end_to_end (env : Env) (prog a p d : String)
    (hd : env.stat d = true) (hc : env.created = true)
    (hp : env.gst_pipeline_new "video-pipeline" = true) (hl : env.linked = true) :
    playing ∈ (main env [prog, a, p, d]).trace ∧
    (∃ pre post, (main env [prog, a, p, d]).trace = pre ++ playing :: post ∧
      (Framework.after pre).property Obj.sink "host" = some (Val.str a) ∧
      (Framework.after pre).property Obj.sink "port" = some (Val.int (atoi p)) ∧
      (Framework.after pre).property Obj.source "device" = some (Val.str d) ∧
      (Framework.after (pre ++ [playing])).state = some GstState.GST_STATE_PLAYING) ∧
    (∀ n : Nat, p.toNat? = some n → n < 2 ^ 31 → atoi p = n) := by
  have hargs : main_arguments [prog, a, p, d] =
      { ip_address := a, device_path := d, udp_port := atoi p, out := [] } := by
    simp [main_arguments]
  have hf : env.failure (main_arguments [prog, a, p, d]).device_path = false := by
    simp [hargs, Env.failure, hd, hc, hp, hl]
  have ht := trace_started env [prog, a, p, d] hf
  rw [hargs] at ht
  refine ⟨?_, ⟨assembly { ip_address := a, device_path := d, udp_port := atoi p, out := [] } ++
      second_link true ++ third_link true ++ fourth_link true ++
      [Event.g_object_set Obj.sink [("host", Val.str a), ("port", Val.int (atoi p))]],
    List.tail (List.tail (running { ip_address := a, device_path := d, udp_port := atoi p, out := [] } env.g_main_loop_run)), ?_, ?_, ?_, ?_, ?_⟩, ?_⟩
  · rw [ht]; simp [running, playing]
  · rw [ht]; simp [running, playing]
  · simp [Framework.after, Framework.step, Framework.property, Framework.init, assembly, startup, second_link, third_link, fourth_link]
  · simp [Framework.after, Framework.step, Framework.property, Framework.init, assembly, startup, second_link, third_link, fourth_link]
  · simp [Framework.after, Framework.step, Framework.property, Framework.init, assembly, startup, second_link, third_link, fourth_link]
  · simp [Framework.after, Framework.step, Framework.property, Framework.init, assembly, startup, second_link, third_link, fourth_link, playing]
  · intro n hn hlt
    exact atoi_decimal p n hn hlt

/-- C2 at ("203.0.113.5", "6000", "/dev/video1") in a framework where every
call succeeds. -/
theorem C2_witness :
    playing ∈ (main Env.nominal ["camera", "203.0.113.5", "6000", "/dev/video1"]).trace ∧
    (∃ pre post, (main Env.nominal ["camera", "203.0.113.5", "6000", "/dev/video1"]).trace =
        pre ++ playing :: post ∧
      (Framework.after pre).property Obj.sink "host" = some (Val.str "203.0.113.5") ∧
      (Framework.after pre).property Obj.sink "port" = some (Val.int 6000) ∧
      (Framework.after pre).property Obj.source "device" = some (Val.str "/dev/video1") ∧
      (Framework.after (pre ++ [playing])).state = some GstState.GST_STATE_PLAYING) :=
  have h := C2_end_to_end Env.nominal "camera" "203.0.113.5" "6000" "/dev/video1" rfl rfl rfl rfl
  have h6 : atoi "6000" = 6000 := by decide
  ⟨h.1, h6 ▸ h.2.1⟩

/-- C3: when the configured device path does not exist, `main` returns -1,
its last call prints the diagnostic "Device <path> not found", and it has
made no framework call at all: no `gst_init`, no element, pipeline or caps
creation. -/
theorem C3_missing_device (env : Env) (argv : List String)
    (h : env.stat (main env argv).device_path = false) :
    (main env argv).ret = some (-1) ∧
    (main env argv).trace.getLast? =
      some (Event.g_printerr ("Device " ++ (main env argv).device_path ++ " not found\n")) ∧
    Event.gst_init ∉ (main env argv).trace ∧
    (∀ e ∈ (main env argv).trace, e.framework_call = false) ∧
    created_objects (main env argv).trace = [] := by
  rw [(main_locals env argv).2.2] at h ⊢
  obtain ⟨ht, hr⟩ := main_missing env argv h
  rcases main_arguments_out argv with ho | ho <;>
  simp [ht, hr, ho, Event.framework_call, created_objects, Event.creates]

/-- C3 at an invocation without arguments where no device path exists. -/
theorem C3_witness :
    (main Env.no_device ["camera"]).ret = some (-1) ∧
    (main Env.no_device ["camera"]).trace.getLast? =
      some (Event.g_printerr "Device /dev/video0 not found\n") ∧
    Event.gst_init ∉ (main Env.no_device ["camera"]).trace :=
  have h := C3_missing_device Env.no_device ["camera"] rfl
  ⟨h.1, h.2.1, h.2.2.1⟩

/-- C4: `main` returns -1 exactly when the device path is missing or a
creation, the container creation or a link fails; it returns 0 exactly when
none of these holds and the blocking `g_main_loop_run` returns, and does not
return when none holds and the loop never returns.  Without a failure the
pipeline is started once, followed by the main loop and, if the loop returns,
by the shutdown calls. -/
theorem C4_return_codes (env : Env) (argv : List String) :
    ((main env argv).ret = some (-1) ↔ env.failure (main env argv).device_path = true) ∧
    ((main env argv).ret = some 0 ↔
      env.failure (main env argv).device_path = false ∧ env.g_main_loop_run = true) ∧
    ((main env argv).ret = none ↔
      env.failure (main env argv).device_path = false ∧ env.g_main_loop_run = false) ∧
    (env.failure (main env argv).device_path = true ∨
      ∃ pre, playing ∉ pre ∧ (main env argv).trace =
        pre ++ [playing, Event.g_print "Streaming Started!! SAFE PARK\n",
          Event.g_print "Press Ctrl+C to terminate\n", Event.g_main_loop_new,
          Event.g_main_loop_run env.g_main_loop_run] ++
        (if env.g_main_loop_run then
          [Event.gst_element_set_state Obj.pipeline GstState.GST_STATE_NULL,
           Event.gst_object_unref Obj.pipeline]
         else [])) := by
  refine ⟨?_, ?_, ?_, ?_⟩
  · rw [main_ret]
    cases env.failure (main env argv).device_path <;> cases env.g_main_loop_run <;> simp
  · rw [main_ret]
    cases env.failure (main env argv).device_path <;> cases env.g_main_loop_run <;> simp
  · rw [main_ret]
    cases env.failure (main env argv).device_path <;> cases env.g_main_loop_run <;> simp
  · rw [(main_locals env argv).2.2]
    cases hf : env.failure (main_arguments argv).device_path
    · right
      have ht := trace_started env argv hf
      have hP := playing_not_mem_assembly (main_arguments argv) (main_arguments_out argv)
      refine ⟨assembly (main_arguments argv) ++ second_link true ++ third_link true ++
        fourth_link true ++ [Event.g_object_set Obj.sink
          [("host", Val.str (main_arguments argv).ip_address),
           ("port", Val.int (main_arguments argv).udp_port)]], ?_, ?_⟩
      · simp only [List.mem_append, hP, false_or]
        simp [playing, second_link, third_link, fourth_link]
      · rw [ht]
        cases env.g_main_loop_run <;> simp [running, playing]
    · exact Or.inl rfl

/-- C5: in a run where a stage-object creation returns `NULL` no link is
attempted; in a run where the k-th link fails the attempted links are exactly
the first k of the chain, the failing one last; in both cases the pipeline is
never set to PLAYING and `main` returns -1. -/
theorem C5_stop_at_first_failure (env : Env) (argv : List String)
    (hfail : (∃ f n, Event.gst_element_factory_make f n none ∈ (main env argv).trace) ∨
      (∃ a ∈ link_attempts (main env argv).trace, a.2.2.2 = false)) :
    playing ∉ (main env argv).trace ∧
    (main env argv).ret = some (-1) ∧
    ((∃ f n, Event.gst_element_factory_make f n none ∈ (main env argv).trace) →
      link_attempts (main env argv).trace = []) ∧
    ((Obj.source, Obj.convert, some Obj.caps, false) ∈ link_attempts (main env argv).trace →
      link_attempts (main env argv).trace = failed_at 0) ∧
    ((Obj.convert, Obj.encoder, none, false) ∈ link_attempts (main env argv).trace →
      link_attempts (main env argv).trace = failed_at 1) ∧
    ((Obj.encoder, Obj.payloader, none, false) ∈ link_attempts (main env argv).trace →
      link_attempts (main env argv).trace = failed_at 2) ∧
    ((Obj.payloader, Obj.sink, none, false) ∈ link_attempts (main env argv).trace →
      link_attempts (main env argv).trace = failed_at 3) ∧
    (∀ a ∈ link_attempts (main env argv).trace, a.2.2.2 = false →
      (a.1, a.2.1, a.2.2.1) ∈ chain) := by
  rcases main_cases env argv with ⟨-, -, ht, hr⟩ | ⟨-, -, ht, hr⟩ | ⟨-, hc, ht, hr⟩ | ⟨-, ht, hr⟩ |
    ⟨-, ht, hr⟩ | ⟨-, ht, hr⟩ | ⟨-, ht, hr⟩ | ⟨-, ht, hr⟩
  · exfalso
    rw [ht] at hfail
    rcases main_arguments_out argv with ho | ho <;>
    simp [ho, link_attempts, Event.link_attempt] at hfail
  · rw [ht, hr]
    rcases main_arguments_out argv with ho | ho <;>
    simp [ho, link_attempts, Event.link_attempt, startup, creation, playing]
  · exfalso
    rw [ht, creation_of_created env hc] at hfail
    rcases main_arguments_out argv with ho | ho <;>
    simp [ho, link_attempts, Event.link_attempt, startup] at hfail
  · rw [ht, hr]
    rcases main_arguments_out argv with ho | ho <;>
    simp [ho, link_attempts, Event.link_attempt, startup, assembly, abort, playing, failed_at,
      linked_chain, chain]
  · rw [ht, hr]
    rcases main_arguments_out argv with ho | ho <;>
    simp [ho, link_attempts, Event.link_attempt, startup, assembly, second_link, abort, playing,
      failed_at, linked_chain, chain]
  · rw [ht, hr]
    rcases main_arguments_out argv with ho | ho <;>
    simp [ho, link_attempts, Event.link_attempt, startup, assembly, second_link, third_link,
      abort, playing, failed_at, linked_chain, chain]
  · rw [ht, hr]
    rcases main_arguments_out argv with ho | ho <;>
    simp [ho, link_attempts, Event.link_attempt, startup, assembly, second_link, third_link,
      fourth_link, abort, playing, failed_at, linked_chain, chain]
  · exfalso
    rw [ht] at hfail
    rcases main_arguments_out argv with ho | ho <;> cases hb : env.g_main_loop_run <;>
    simp [hb, ho, link_attempts, Event.link_attempt, startup, assembly, second_link, third_link,
      fourth_link, running] at hfail

/-- C5 at a run whose second link fails. -/
theorem C5_witness :
    playing ∉ (main (Env.broken_link Obj.convert) ["camera"]).trace ∧
    (main (Env.broken_link Obj.convert) ["camera"]).ret = some (-1) ∧
    link_attempts (main (Env.broken_link Obj.convert) ["camera"]).trace =
      [(Obj.source, Obj.convert, some Obj.caps, true), (Obj.convert, Obj.encoder, none, false)] :=
  have h := C5_stop_at_first_failure (Env.broken_link Obj.convert) ["camera"]
    (Or.inr ⟨(Obj.convert, Obj.encoder, none, false), by decide, rfl⟩)
  ⟨h.1, h.2.1, h.2.2.2.2.1 (by decide)⟩

/-- C6 fails as stated: when the capture element cannot be created, `main`
returns -1 while the four stage objects that were created are still live. -/
theorem C6_counterexample :
    (main Env.no_v4l2src ["camera"]).trace.any Event.failed_creation = true ∧
    (main Env.no_v4l2src ["camera"]).ret = some (-1) ∧
    (main Env.no_v4l2src ["camera"]).live =
      [Obj.convert, Obj.encoder, Obj.payloader, Obj.sink] ∧
    (main Env.no_v4l2src ["camera"]).live ≠ [] := by
  decide

/-- C6, amended: on every assembly failure `main` returns -1.  When a link
fails, the pipeline container and the five stage objects it contains are no
longer live on return, and when the failing link is not the first one nothing
at all is live.  When a stage-object creation or the container creation
fails, `main` makes no release call: every object created so far is still
live on return. -/
theorem C6_release_on_failure (env : Env) (argv : List String)
    (hfail : (main env argv).trace.any Event.failed_creation = true ∨
      (link_attempts (main env argv).trace).any (fun a => !a.2.2.2) = true) :
    (main env argv).ret = some (-1) ∧
    ((main env argv).trace.any Event.failed_creation = true →
      (main env argv).live = created_objects (main env argv).trace ∧
      (main env argv).trace.any Event.releases = false) ∧
    ((link_attempts (main env argv).trace).any (fun a => !a.2.2.2) = true →
      ∀ o ∈ (main env argv).live,
        o ∉ [Obj.source, Obj.convert, Obj.encoder, Obj.payloader, Obj.sink, Obj.pipeline]) ∧
    ((link_attempts (main env argv).trace).any (fun a => !a.2.2.2 && a.1 != Obj.source) = true →
      (main env argv).live = []) := by
  have ho := main_arguments_out argv
  have hA := after_assembly (main_arguments argv) ho
  have hN := failed_creation_assembly (main_arguments argv) ho
  have hL := link_attempts_assembly (main_arguments argv) ho
  unfold Run.live
  rcases main_cases env argv with ⟨-, -, ht, hr⟩ | ⟨-, -, ht, hr⟩ | ⟨-, hc, ht, hr⟩ | ⟨-, ht, hr⟩ |
    ⟨-, ht, hr⟩ | ⟨-, ht, hr⟩ | ⟨-, ht, hr⟩ | ⟨-, ht, hr⟩
  · exfalso
    rw [ht] at hfail
    rcases ho with ho | ho <;>
    simp [ho, link_attempts, Event.link_attempt, Event.failed_creation] at hfail
  · have hrel : (main env argv).trace.any Event.releases = false := by
      rw [ht]
      rcases ho with ho | ho <;> simp [ho, startup, creation, Event.releases]
    have hlinks : link_attempts (main env argv).trace = [] := by
      rw [ht]
      rcases ho with ho | ho <;>
      simp [ho, startup, creation, link_attempts, Event.link_attempt]
    refine ⟨hr, fun _ => ⟨?_, hrel⟩, ?_, ?_⟩
    · simpa [Framework.after, Framework.init] using
        live_of_no_release (main env argv).trace Framework.init (by simpa using hrel)
    · simp [hlinks]
    · simp [hlinks]
  · have hrel : (main env argv).trace.any Event.releases = false := by
      rw [ht]
      rcases ho with ho | ho <;> simp [ho, startup, creation, Event.releases]
    have hlinks : link_attempts (main env argv).trace = [] := by
      rw [ht]
      rcases ho with ho | ho <;>
      simp [ho, startup, creation, link_attempts, Event.link_attempt]
    refine ⟨hr, fun _ => ⟨?_, hrel⟩, ?_, ?_⟩
    · simpa [Framework.after, Framework.init] using
        live_of_no_release (main env argv).trace Framework.init (by simpa using hrel)
    · simp [hlinks]
    · simp [hlinks]
  · have hlive : (Framework.after (main env argv).trace).live = [Obj.caps] := by
      rw [ht, List.append_assoc, after_append, hA]
      simp [abort, Framework.step]
    have hatt : link_attempts (main env argv).trace =
        [(Obj.source, Obj.convert, some Obj.caps, false)] := by
      rw [ht]
      simp only [link_attempts_append, hL, link_attempts_first, link_attempts_abort,
        List.nil_append, List.append_nil]
    have hfc : (main env argv).trace.any Event.failed_creation = false := by
      rw [ht]
      simp [List.any_append, hN, abort, Event.failed_creation]
    simp [hr, hlive, hatt, hfc]
  · have hlive : (Framework.after (main env argv).trace).live = [] := by
      rw [ht, List.append_assoc, after_append, hA]
      simp [abort, second_link, Framework.step]
    have hfc : (main env argv).trace.any Event.failed_creation = false := by
      rw [ht]
      simp [List.any_append, hN, abort, second_link, Event.failed_creation]
    simp [hr, hlive, hfc]
  · have hlive : (Framework.after (main env argv).trace).live = [] := by
      rw [ht, List.append_assoc, List.append_assoc, after_append, hA]
      simp [abort, second_link, third_link, Framework.step]
    have hfc : (main env argv).trace.any Event.failed_creation = false := by
      rw [ht]
      simp [List.any_append, hN, abort, second_link, third_link, Event.failed_creation]
    simp [hr, hlive, hfc]
  · have hlive : (Framework.after (main env argv).trace).live = [] := by
      rw [ht, List.append_assoc, List.append_assoc, List.append_assoc, after_append, hA]
      simp [abort, second_link, third_link, fourth_link, Framework.step]
    have hfc : (main env argv).trace.any Event.failed_creation = false := by
      rw [ht]
      simp [List.any_append, hN, abort, second_link, third_link, fourth_link,
        Event.failed_creation]
    simp [hr, hlive, hfc]
  · exfalso
    rw [ht] at hfail
    rcases hfail with h | h
    · cases hb : env.g_main_loop_run <;>
      simp [hb, List.any_append, hN, second_link, third_link, fourth_link, running,
        Event.failed_creation] at h
    · simp only [link_attempts_append, hL, link_attempts_second_link, link_attempts_third_link,
        link_attempts_fourth_link, link_attempts_running] at h
      simp at h

/-- C6, amended, at a run whose third link fails. -/
theorem C6_witness :
    (main (Env.broken_link Obj.encoder) ["camera"]).ret = some (-1) ∧
    (main (Env.broken_link Obj.encoder) ["camera"]).live = [] :=
  have h := C6_release_on_failure (Env.broken_link Obj.encoder) ["camera"]
    (Or.inr (by decide))
  ⟨h.1, h.2.2.2 (by decide)⟩

/-- C7: in a run that reaches the start of the pipeline, the encoder receives
exactly one `g_object_set`, with tune 4, key-int-max 15, bitrate 1000 and
speed-preset 1, and the payloader exactly one, with config-interval 1 and pt
96; both happen before the pipeline is set to PLAYING, and the values are
these constants for every argument vector. -/
theorem C7_fixed_settings (env : Env) (argv : List String)
    (h : playing ∈ (main env argv).trace) :
    settings_of Obj.encoder (main env argv).trace =
      [[("tune", Val.int 4), ("key-int-max", Val.int 15), ("bitrate", Val.int 1000),
        ("speed-preset", Val.int 1)]] ∧
    settings_of Obj.payloader (main env argv).trace =
      [[("config-interval", Val.int 1), ("pt", Val.int 96)]] ∧
    (∃ pre post, (main env argv).trace = pre ++ playing :: post ∧
      playing ∉ pre ∧
      settings_of Obj.encoder post = [] ∧ settings_of Obj.payloader post = [] ∧
      (Framework.after pre).property Obj.encoder "tune" = some (Val.int 4) ∧
      (Framework.after pre).property Obj.encoder "key-int-max" = some (Val.int 15) ∧
      (Framework.after pre).property Obj.encoder "bitrate" = some (Val.int 1000) ∧
      (Framework.after pre).property Obj.encoder "speed-preset" = some (Val.int 1) ∧
      (Framework.after pre).property Obj.payloader "config-interval" = some (Val.int 1) ∧
      (Framework.after pre).property Obj.payloader "pt" = some (Val.int 96)) := by
  have ho := main_arguments_out argv
  have hf := failure_of_playing env argv h
  have ht := trace_started env argv hf
  have hS := settings_of_assembly (main_arguments argv) ho
  have hP := playing_not_mem_assembly (main_arguments argv) ho
  have hA := after_assembly (main_arguments argv) ho
  refine ⟨?_, ?_, assembly (main_arguments argv) ++ second_link true ++ third_link true ++
      fourth_link true ++ [Event.g_object_set Obj.sink
        [("host", Val.str (main_arguments argv).ip_address),
         ("port", Val.int (main_arguments argv).udp_port)]],
    List.tail (List.tail (running (main_arguments argv) env.g_main_loop_run)), ?_, ?_, ?_, ?_, ?_⟩
  · rw [ht]
    simp only [settings_of_append, hS.1]
    cases env.g_main_loop_run <;> simp [settings_of, second_link, third_link, fourth_link, running]
  · rw [ht]
    simp only [settings_of_append, hS.2]
    cases env.g_main_loop_run <;> simp [settings_of, second_link, third_link, fourth_link, running]
  · rw [ht]; simp [running, playing]
  · simp only [List.mem_append, hP, false_or]
    simp [playing, second_link, third_link, fourth_link]
  · cases env.g_main_loop_run <;> simp [settings_of, running]
  · cases env.g_main_loop_run <;> simp [settings_of, running]
  · simp only [List.append_assoc, after_append, hA]
    simp [Framework.step, Framework.property, second_link, third_link, fourth_link]

/-- C7 at a run with two positional arguments where every call succeeds. -/
theorem C7_witness :
    settings_of Obj.encoder (main Env.nominal ["camera", "203.0.113.5", "6000"]).trace =
      [[("tune", Val.int 4), ("key-int-max", Val.int 15), ("bitrate", Val.int 1000),
        ("speed-preset", Val.int 1)]] ∧
    settings_of Obj.payloader (main Env.nominal ["camera", "203.0.113.5", "6000"]).trace =
      [[("config-interval", Val.int 1), ("pt", Val.int 96)]] :=
  have h := C7_fixed_settings Env.nominal ["camera", "203.0.113.5", "6000"] (by decide)
  ⟨h.1, h.2.1⟩

/-- C8 fails as stated: with four positional arguments the configuration is
not taken from the first three (it is the defaults), and where only
"/dev/video1" exists the run returns -1 while the run on the first three
arguments starts the pipeline. -/
theorem C8_counterexample :
    (main Env.only_video1 ["camera", "203.0.113.5", "6000", "/dev/video1", "extra"]).config =
      ("127.0.0.1", 5000, "/dev/video0") ∧
    (main Env.only_video1 ["camera", "203.0.113.5", "6000", "/dev/video1", "extra"]).ret =
      some (-1) ∧
    (main Env.only_video1 ["camera", "203.0.113.5", "6000", "/dev/video1"]).config =
      ("203.0.113.5", 6000, "/dev/video1") ∧
    (main Env.only_video1 ["camera", "203.0.113.5", "6000", "/dev/video1"]).ret = none := by
  decide

/-- C8, amended: with more than three positional arguments `main` prints the
warning and goes on, but takes no argument at all: address, port and device
path are the defaults, so the run is the warning followed by the run of the
invocation without arguments, with the same return value. -/
theorem C8_extra_arguments (env : Env) (argv : List String) (h : 4 < argv.length) :
    (main env argv).config = ("127.0.0.1", 5000, "/dev/video0") ∧
    (main env argv).config = (main env (argv.take 1)).config ∧
    (main env argv).trace =
      Event.g_printerr "Check Input Variables\n" :: (main env (argv.take 1)).trace ∧
    (main env argv).ret = (main env (argv.take 1)).ret := by
  have h5 : main_arguments argv =
      { ip_address := "127.0.0.1", device_path := "/dev/video0", udp_port := 5000,
        out := [Event.g_printerr "Check Input Variables\n"] } := by
    unfold main_arguments
    have h2 : ¬ argv.length = 2 := by omega
    have h3 : ¬ argv.length = 3 := by omega
    have h4 : ¬ argv.length = 4 := by omega
    simp [h2, h3, h4, h]
  have h1 : main_arguments (argv.take 1) =
      { ip_address := "127.0.0.1", device_path := "/dev/video0", udp_port := 5000,
        out := [] } := by
    unfold main_arguments
    have hl : (argv.take 1).length = 1 := by
      rw [List.length_take]; omega
    simp [hl]
  have e5 := main_trace_out env argv (argv.take 1) _ (Event.g_printerr "Check Input Variables\n")
    (by rw [h5, h1]) rfl
  refine ⟨?_, ?_, ?_, ?_⟩
  · simp [Run.config, main_locals, h5]
  · simp [Run.config, main_locals, h5, h1]
  · exact e5
  · rw [main_ret, main_ret]
    simp [main_locals, h5, h1]

/-- C8, amended, at an invocation with four positional arguments where only
"/dev/video1" exists. -/
theorem C8_witness :
    (main Env.only_video1 ["camera", "203.0.113.5", "6000", "/dev/video1", "extra"]).trace =
      [Event.g_printerr "Check Input Variables\n", Event.stat "/dev/video0" false,
       Event.g_printerr "Device /dev/video0 not found\n"] :=
  (C8_extra_arguments Env.only_video1
    ["camera", "203.0.113.5", "6000", "/dev/video1", "extra"] (by decide)).2.2.1.trans (by decide)

/-- C9: in a run where assembly succeeds exactly four links are made, in the
order source-convert, convert-encoder, encoder-payloader, payloader-sink, all
successful; only the first carries the caps filter; the one caps object built
is video/x-raw with width 640, height 480 and framerate 30/1, whatever the
arguments. -/
theorem C9_linear_chain (env : Env) (argv : List String)
    (h : env.failure (main env argv).device_path = false) :
    link_attempts (main env argv).trace =
      [(Obj.source, Obj.convert, some Obj.caps, true), (Obj.convert, Obj.encoder, none, true),
       (Obj.encoder, Obj.payloader, none, true), (Obj.payloader, Obj.sink, none, true)] ∧
    (main env argv).trace.filterMap Event.caps_built =
      [("video/x-raw",
        [("width", Val.int 640), ("height", Val.int 480), ("framerate", Val.fraction 30 1)])] ∧
    created_objects (main env argv).trace =
      [Obj.source, Obj.convert, Obj.encoder, Obj.payloader, Obj.sink, Obj.pipeline, Obj.caps,
       Obj.loop] := by
  rw [(main_locals env argv).2.2] at h
  have ho := main_arguments_out argv
  have ht := trace_started env argv h
  have hL := link_attempts_assembly (main_arguments argv) ho
  have hC := caps_built_assembly (main_arguments argv) ho
  refine ⟨?_, ?_, ?_⟩
  · rw [ht]
    simp only [link_attempts_append, hL, link_attempts_second_link, link_attempts_third_link,
      link_attempts_fourth_link, link_attempts_running]
    rfl
  · rw [ht]
    simp only [List.filterMap_append, hC]
    cases env.g_main_loop_run <;>
    simp [second_link, third_link, fourth_link, running, Event.caps_built]
  · rw [ht]
    rcases ho with ho | ho <;> cases env.g_main_loop_run <;>
    simp [ho, created_objects, Event.creates, assembly, startup, second_link, third_link,
      fourth_link, running]

/-- C9 at an invocation without arguments where every call succeeds. -/
theorem C9_witness :
    link_attempts (main Env.nominal ["camera"]).trace =
      [(Obj.source, Obj.convert, some Obj.caps, true), (Obj.convert, Obj.encoder, none, true),
       (Obj.encoder, Obj.payloader, none, true), (Obj.payloader, Obj.sink, none, true)] ∧
    (main Env.nominal ["camera"]).trace.filterMap Event.caps_built =
      [("video/x-raw",
        [("width", Val.int 640), ("height", Val.int 480), ("framerate", Val.fraction 30 1)])] :=
  have h := C9_linear_chain Env.nominal ["camera"] (by decide)
  ⟨h.1, h.2.1⟩

/-- C10: with exactly two positional arguments the second one is the port,
read by `atoi`: the device path stays "/dev/video0", no warning is printed,
the return value is that of the run without the second argument, and the port
is 0 whenever the text has no leading decimal digit.  The usage example of the
file header, `./camera 127.0.1 /dev/video1`, gives address "127.0.1", port 0
and device path "/dev/video0". -/
theorem C10_second_argument_is_port (env : Env) (prog a p : String) :
    (main env [prog, a, p]).config = (a, atoi p, "/dev/video0") ∧
    (main env [prog, a, p]).udp_port = (if has_leading_digit p then atoi p else 0) ∧
    (main_arguments [prog, a, p]).out = [] ∧
    (main env [prog, a, p]).ret = (main env [prog, a]).ret ∧
    (main env ["./camera", "127.0.1", "/dev/video1"]).config = ("127.0.1", 0, "/dev/video0") := by
  refine ⟨by simp [Run.config, main_locals, main_arguments], ?_, by simp [main_arguments], ?_, ?_⟩
  · have : (main env [prog, a, p]).udp_port = atoi p := by simp [main_locals, main_arguments]
    rw [this]
    cases h : has_leading_digit p
    · simp [atoi_no_digit p h]
    · simp
  · rw [main_ret, main_ret]
    simp [main_locals, main_arguments]
  · have h0 : atoi "/dev/video1" = 0 := by decide
    simp [Run.config, main_locals, main_arguments, h0]

end Camera
